import Mathlib

/-!
Verification development for the bukudapur-mbg bookkeeping engine.

The Python source (`bukudapur_mbg/routes.py`, `bukudapur_mbg/models.py`) is
shallowly embedded here: monetary amounts and timestamps are rationals
(timestamps measured in days, so "+ 1 day" is "+ 1"), database tables are
lists of records, SQLAlchemy queries become list operations, and fallible
operations (journal builders that raise on a missing account) return
`Except`.  Primary keys are assumed distinct, as in the database schema.
-/

namespace Bukudapur

attribute [local semireducible] Rat.add Rat.sub Rat.mul Rat.inv

/-! ### Ordering helpers

Python sorts rows by `(date, id)` (or `(date, flag)` for merged inventory
events) with a stable sort; we model this with `List.insertionSort` over a
lexicographic key order. -/

/-- Lexicographic `≤` on a `(date, id)`-style key. -/
def keyLe (a b : ℚ × Nat) : Prop := a.1 < b.1 ∨ (a.1 = b.1 ∧ a.2 ≤ b.2)

instance : DecidableRel keyLe := fun a b => by unfold keyLe; infer_instance

theorem keyLe_total : ∀ a b, keyLe a b ∨ keyLe b a := by
  intro a b
  rcases lt_trichotomy a.1 b.1 with h | h | h
  · exact Or.inl (Or.inl h)
  · rcases Nat.le_total a.2 b.2 with h2 | h2
    · exact Or.inl (Or.inr ⟨h, h2⟩)
    · exact Or.inr (Or.inr ⟨h.symm, h2⟩)
  · exact Or.inr (Or.inl h)

theorem keyLe_trans : ∀ a b c, keyLe a b → keyLe b c → keyLe a c := by
  rintro a b c (h | ⟨h, h2⟩) (h' | ⟨h', h2'⟩)
  · exact Or.inl (h.trans h')
  · exact Or.inl (h'.symm ▸ h)
  · exact Or.inl (h ▸ h')
  · exact Or.inr ⟨h.trans h', h2.trans h2'⟩

/-- Lexicographic `≤` on a `(date, id, sub-id)`-style key. -/
def key3Le (a b : ℚ × Nat × Nat) : Prop :=
  a.1 < b.1 ∨ (a.1 = b.1 ∧ (a.2.1 < b.2.1 ∨ (a.2.1 = b.2.1 ∧ a.2.2 ≤ b.2.2)))

instance : DecidableRel key3Le := fun a b => by unfold key3Le; infer_instance

/-- Sort by a two-component lexicographic key, mirroring a stable
`ORDER BY date, id`. -/
def sortBy2 {α : Type} (k : α → ℚ × Nat) (l : List α) : List α :=
  List.insertionSort (fun a b => keyLe (k a) (k b)) l

/-- Sort by a three-component lexicographic key, mirroring a stable
`ORDER BY date, id, sub_id`. -/
def sortBy3 {α : Type} (k : α → ℚ × Nat × Nat) (l : List α) : List α :=
  List.insertionSort (fun a b => key3Le (k a) (k b)) l

theorem sortBy2_sorted {α : Type} (k : α → ℚ × Nat) (l : List α) :
    List.Sorted (fun a b => keyLe (k a) (k b)) (sortBy2 k l) := by
  haveI : IsTotal α (fun a b => keyLe (k a) (k b)) := ⟨fun a b => keyLe_total _ _⟩
  haveI : IsTrans α (fun a b => keyLe (k a) (k b)) := ⟨fun a b c => keyLe_trans _ _ _⟩
  exact List.sorted_insertionSort _ l

theorem sortBy2_perm {α : Type} (k : α → ℚ × Nat) (l : List α) :
    List.Perm (sortBy2 k l) l :=
  List.perm_insertionSort _ l

theorem sortBy3_perm {α : Type} (k : α → ℚ × Nat × Nat) (l : List α) :
    List.Perm (sortBy3 k l) l :=
  List.perm_insertionSort _ l

theorem orderedInsert_map {α : Type} (r : α → α → Prop) [DecidableRel r] (f : α → α)
    (hf : ∀ x y, r (f x) (f y) ↔ r x y) (a : α) (l : List α) :
    List.orderedInsert r (f a) (l.map f) = (List.orderedInsert r a l).map f := by
  induction l with
  | nil => rfl
  | cons b bs ih =>
    simp only [List.map_cons, List.orderedInsert]
    by_cases h : r a b
    · rw [if_pos ((hf a b).mpr h), if_pos h, List.map_cons, List.map_cons]
    · rw [if_neg (fun hc => h ((hf a b).mp hc)), if_neg h, List.map_cons, ih]

theorem insertionSort_map {α : Type} (r : α → α → Prop) [DecidableRel r] (f : α → α)
    (hf : ∀ x y, r (f x) (f y) ↔ r x y) (l : List α) :
    List.insertionSort r (l.map f) = (List.insertionSort r l).map f := by
  induction l with
  | nil => rfl
  | cons a as ih =>
    simp only [List.map_cons, List.insertionSort]
    rw [ih, orderedInsert_map r f hf]

/-- A key-preserving per-row update commutes with sorting by that key. -/
theorem sortBy2_map {α : Type} (k : α → ℚ × Nat) (f : α → α)
    (hk : ∀ x, k (f x) = k x) (l : List α) :
    sortBy2 k (l.map f) = (sortBy2 k l).map f := by
  unfold sortBy2
  exact insertionSort_map _ f (fun x y => by rw [hk x, hk y]) l

/-! ### Data model (`models.py`)

Every table carries an `access_code_id` tenant column in the schema; the
routes never assign it when inserting, so freshly built rows carry `none`.
It is kept in the embedding because tenant-isolation claims quantify over
it. -/

/-- The `Account` row: tenant-scoped chart-of-accounts entry. -/
structure Account where
  tenant : Nat
  code : String
  name : String
deriving DecidableEq

/-- The `Item` row: stock item with current quantity and weighted-average cost. -/
structure Item where
  id : Nat
  tenant : Option Nat
  stock_qty : ℚ
  avg_cost : ℚ
deriving DecidableEq

/-- The `JournalLine` row (debit/credit posting with denormalized account
code and name). -/
structure JournalLine where
  tenant : Option Nat
  account_code : String
  account_name : String
  debit : ℚ
  credit : ℚ
deriving DecidableEq

/-- The `JournalEntry` row together with its owned lines. -/
structure JournalEntry where
  id : Nat
  tenant : Option Nat
  date : ℚ
  memo : Option String
  source : String
  source_id : Option Nat
  lines : List JournalLine
deriving DecidableEq

/-- The `CashTransaction` row. -/
structure CashTransaction where
  id : Nat
  tenant : Option Nat
  date : ℚ
  direction : String
  cash_account_code : String
  cash_account_name : String
  counter_account_code : String
  counter_account_name : String
  amount : ℚ
  memo : Option String
  journal_entry_id : Option Nat
deriving DecidableEq

/-- The `Purchase` row. -/
structure Purchase where
  id : Nat
  tenant : Option Nat
  date : ℚ
  total_amount : ℚ
  is_paid : Bool
  memo : Option String
  journal_entry_id : Option Nat
deriving DecidableEq

/-- The `PurchaseItem` row (line of a purchase). -/
structure PurchaseItem where
  id : Nat
  purchase_id : Nat
  item_id : Nat
  qty : ℚ
  price : ℚ
deriving DecidableEq

/-- The `APayment` row (payment against accounts payable). -/
structure APayment where
  id : Nat
  date : ℚ
  purchase_id : Option Nat
  cash_account_code : String
  cash_account_name : String
  amount : ℚ
  memo : Option String
  journal_entry_id : Option Nat
deriving DecidableEq

/-- The `SalesInvoice` row. -/
structure SalesInvoice where
  id : Nat
  tenant : Option Nat
  date : ℚ
  invoice_no : String
  customer_name : String
  ar_account_code : String
  ar_account_name : String
  revenue_account_code : String
  revenue_account_name : String
  total_amount : ℚ
  paid_amount : ℚ
  status : String
  journal_entry_id : Option Nat
deriving DecidableEq

/-- The `ARPayment` row (payment against a sales invoice). -/
structure ARPayment where
  id : Nat
  date : ℚ
  invoice_id : Nat
  invoice_no : String
  cash_account_code : String
  cash_account_name : String
  amount : ℚ
  memo : Option String
  journal_entry_id : Option Nat
deriving DecidableEq

/-- The `StockUsage` row (inventory consumption). -/
structure StockUsage where
  id : Nat
  date : ℚ
  item_id : Nat
  qty : ℚ
  unit_cost : ℚ
  total_cost : ℚ
  hpp_account_code : String
  memo : Option String
  journal_entry_id : Option Nat
deriving DecidableEq

/-! ### Journal builders (`routes.py` lines 263-489)

Each `_create_journal_for_*` helper builds one entry with exactly two
lines.  `Account.query.filter_by(code=...).first()` is a lookup over the
whole `accounts` table — it carries no tenant filter in the source. -/

/-- The `Account.query.filter_by(code=code).first()`: first account in table
order with the given code, over all tenants. -/
def find_account (accounts : List Account) (code : String) : Option Account :=
  accounts.find? (fun a => a.code == code)

/-- The `_create_journal_for_cash`: direction `"in"` debits the cash account
and credits the counter account; any other direction does the opposite. -/
def create_journal_for_cash (tx : CashTransaction) : JournalEntry :=
  if tx.direction == "in" then
    { id := 0, tenant := none, date := tx.date, memo := tx.memo,
      source := "cash", source_id := some tx.id,
      lines := [
        { tenant := none, account_code := tx.cash_account_code,
          account_name := tx.cash_account_name, debit := tx.amount, credit := 0 },
        { tenant := none, account_code := tx.counter_account_code,
          account_name := tx.counter_account_name, debit := 0, credit := tx.amount }] }
  else
    { id := 0, tenant := none, date := tx.date, memo := tx.memo,
      source := "cash", source_id := some tx.id,
      lines := [
        { tenant := none, account_code := tx.counter_account_code,
          account_name := tx.counter_account_name, debit := tx.amount, credit := 0 },
        { tenant := none, account_code := tx.cash_account_code,
          account_name := tx.cash_account_name, debit := 0, credit := tx.amount }] }

/-- The `_create_journal_for_purchase`: debit Inventory `10051`, credit
Accounts Payable `20011`; raises when either code is absent from the
accounts table. -/
def create_journal_for_purchase (accounts : List Account) (p : Purchase) :
    Except String JournalEntry :=
  let amount := p.total_amount
  match find_account accounts "10051", find_account accounts "20011" with
  | some inventory_acc, some ap_acc =>
    .ok { id := 0, tenant := none, date := p.date, memo := p.memo,
          source := "purchase", source_id := some p.id,
          lines := [
            { tenant := none, account_code := inventory_acc.code,
              account_name := inventory_acc.name, debit := amount, credit := 0 },
            { tenant := none, account_code := ap_acc.code,
              account_name := ap_acc.name, debit := 0, credit := amount }] }
  | _, _ => .error "MissingAccount"

/-- The `_create_journal_for_ap_payment`: debit Accounts Payable `20011`,
credit the chosen cash/bank account; raises when either is absent. -/
def create_journal_for_ap_payment (accounts : List Account) (payment : APayment) :
    Except String JournalEntry :=
  match find_account accounts "20011", find_account accounts payment.cash_account_code with
  | some ap_acc, some cash_acc =>
    .ok { id := 0, tenant := none, date := payment.date, memo := payment.memo,
          source := "ap_payment", source_id := some payment.id,
          lines := [
            { tenant := none, account_code := ap_acc.code,
              account_name := ap_acc.name, debit := payment.amount, credit := 0 },
            { tenant := none, account_code := cash_acc.code,
              account_name := cash_acc.name, debit := 0, credit := payment.amount }] }
  | _, _ => .error "MissingAccount"

/-- The `_create_journal_for_stock_usage`: debit the chosen HPP/expense
account, credit Inventory `10051`; raises when either is absent. -/
def create_journal_for_stock_usage (accounts : List Account) (u : StockUsage) :
    Except String JournalEntry :=
  match find_account accounts "10051", find_account accounts u.hpp_account_code with
  | some inv_acc, some hpp_acc =>
    .ok { id := 0, tenant := none, date := u.date, memo := u.memo,
          source := "stock_usage", source_id := some u.id,
          lines := [
            { tenant := none, account_code := hpp_acc.code,
              account_name := hpp_acc.name, debit := u.total_cost, credit := 0 },
            { tenant := none, account_code := inv_acc.code,
              account_name := inv_acc.name, debit := 0, credit := u.total_cost }] }
  | _, _ => .error "MissingAccount"

/-- The `_create_journal_for_invoice`: debit the invoice's AR account, credit
its revenue account, both for the invoice total. -/
def create_journal_for_invoice (inv : SalesInvoice) : JournalEntry :=
  { id := 0, tenant := none, date := inv.date,
    memo := some ("Invoice " ++ inv.invoice_no ++ " - " ++ inv.customer_name),
    source := "sales_invoice", source_id := some inv.id,
    lines := [
      { tenant := none, account_code := inv.ar_account_code,
        account_name := inv.ar_account_name, debit := inv.total_amount, credit := 0 },
      { tenant := none, account_code := inv.revenue_account_code,
        account_name := inv.revenue_account_name, debit := 0, credit := inv.total_amount }] }

/-- The `_create_journal_for_ar_payment`: debit the chosen cash account,
credit the invoice's AR account, both for the payment amount. -/
def create_journal_for_ar_payment (p : ARPayment) (inv : SalesInvoice) : JournalEntry :=
  { id := 0, tenant := none, date := p.date,
    memo := some ("Pelunasan " ++ inv.invoice_no ++ " - " ++ inv.customer_name),
    source := "ar_payment", source_id := some p.id,
    lines := [
      { tenant := none, account_code := p.cash_account_code,
        account_name := p.cash_account_name, debit := p.amount, credit := 0 },
      { tenant := none, account_code := inv.ar_account_code,
        account_name := inv.ar_account_name, debit := 0, credit := p.amount }] }

/-- Total debit of an entry's lines. -/
def sum_debits (e : JournalEntry) : ℚ := (e.lines.map (fun l => l.debit)).sum

/-- Total credit of an entry's lines. -/
def sum_credits (e : JournalEntry) : ℚ := (e.lines.map (fun l => l.credit)).sum

/-! ### Balance query (`_account_balance`, routes.py lines 196-211)

The query joins journal lines to their entries, filters on the account
code and the optional date window (`to` becomes an exclusive bound at
`to + 1` day) and returns `sum(debit) - sum(credit)`.  It has no tenant
filter whatsoever. -/

/-- Date-window filter of `_account_balance`: `date >= from` and
`date < to + 1 day` when the bounds are given. -/
def entry_in_range (from_date to_date : Option ℚ) (e : JournalEntry) : Bool :=
  (match from_date with
   | none => true
   | some f => decide (f ≤ e.date)) &&
  (match to_date with
   | none => true
   | some t => decide (e.date < t + 1))

/-- The `_account_balance(code, from, to)` as written in the source: joined
over all journal entries in the database, with no tenant scoping. -/
def account_balance (entries : List JournalEntry) (code : String)
    (from_date to_date : Option ℚ) : ℚ :=
  let ls := (entries.filter (entry_in_range from_date to_date)).flatMap
    (fun e => e.lines.filter (fun l => l.account_code == code))
  (ls.map (fun l => l.debit)).sum - (ls.map (fun l => l.credit)).sum

/-- Tenant-scoped balance as the specification's contract
`balance(tenant, accountCode, fromDate?, toDate?)` describes it, written
for comparison with `account_balance`: only lines whose parent entry
belongs to the given tenant contribute. -/
def account_balance_tenant_scoped (tenant : Nat) (entries : List JournalEntry)
    (code : String) (from_date to_date : Option ℚ) : ℚ :=
  let ls := ((entries.filter (fun e => e.tenant == some tenant)).filter
      (entry_in_range from_date to_date)).flatMap
    (fun e => e.lines.filter (fun l => l.account_code == code))
  (ls.map (fun l => l.debit)).sum - (ls.map (fun l => l.credit)).sum

/-! ### Inventory valuator (`_rebuild_inventory`, routes.py lines 3394-3459)

Purchase rows are collected with a join ordered by
`(purchase.date, purchase.id, purchase_item.id)`, usages ordered by
`(date, id)`; the merged event list is then stably sorted by
`(date, flag)`, where purchases carry flag `0` and usages flag `1` so that
purchases apply before usages on the same date. -/

/-- One row of the `PurchaseItem`-`Purchase` join. -/
structure PurchaseRow where
  p_date : ℚ
  p_id : Nat
  pitem : PurchaseItem
deriving DecidableEq

/-- One merged inventory event: flag `0` is a purchase, flag `1` a usage. -/
structure InvEvent where
  date : ℚ
  flag : Nat
  item_id : Nat
  qty : ℚ
  price : ℚ
deriving DecidableEq

/-- The `PurchaseItem`-`Purchase` join, ordered by
`(Purchase.date, Purchase.id, PurchaseItem.id)` as in the source query. -/
def purchase_rows (purchases : List Purchase) (pitems : List PurchaseItem) :
    List PurchaseRow :=
  sortBy3 (fun r => (r.p_date, r.p_id, r.pitem.id))
    (pitems.filterMap (fun pi =>
      (purchases.find? (fun p => p.id == pi.purchase_id)).map
        (fun p => { p_date := p.date, p_id := p.id, pitem := pi })))

/-- Stock usages ordered by `(date, id)`. -/
def usage_rows (usages : List StockUsage) : List StockUsage :=
  sortBy2 (fun u => (u.date, u.id)) usages

/-- A purchase row as a merged event (flag `0`). -/
def purchase_event (r : PurchaseRow) : InvEvent :=
  { date := r.p_date, flag := 0, item_id := r.pitem.item_id,
    qty := r.pitem.qty, price := r.pitem.price }

/-- A usage row as a merged event (flag `1`). -/
def usage_event (u : StockUsage) : InvEvent :=
  { date := u.date, flag := 1, item_id := u.item_id, qty := u.qty, price := 0 }

/-- The merged event list, stably sorted by `(date, flag)` exactly as
`events.sort(key=lambda x: (x[0], x[1]))` does. -/
def inv_events (purchases : List Purchase) (pitems : List PurchaseItem)
    (usages : List StockUsage) : List InvEvent :=
  sortBy2 (fun e => (e.date, e.flag))
    ((purchase_rows purchases pitems).map purchase_event ++
      (usage_rows usages).map usage_event)

/-- Purchase branch of the replay loop: skip non-positive quantities,
otherwise add the quantity and recompute the weighted-average cost. -/
def apply_purchase_event (it : Item) (qty price : ℚ) : Item :=
  if qty ≤ 0 then it
  else
    let total_cost_existing := it.stock_qty * it.avg_cost
    let total_cost_new := qty * price
    let new_qty := it.stock_qty + qty
    { it with
      avg_cost := if 0 < new_qty then (total_cost_existing + total_cost_new) / new_qty else 0,
      stock_qty := new_qty }

/-- Usage branch of the replay loop: skip non-positive quantities,
otherwise subtract the quantity, clamping the stock at zero; the average
cost is untouched. -/
def apply_usage_event (it : Item) (qty : ℚ) : Item :=
  if qty ≤ 0 then it
  else
    let s := it.stock_qty - qty
    { it with stock_qty := if s < 0 then 0 else s }

/-- Apply one merged event to the item table (`item_map.get` returning
nothing means the event is skipped; items are keyed by distinct ids). -/
def apply_inv_event (items : List Item) (e : InvEvent) : List Item :=
  items.map (fun it =>
    if it.id == e.item_id then
      if e.flag == 0 then apply_purchase_event it e.qty e.price
      else apply_usage_event it e.qty
    else it)

/-- The reset at the top of `_rebuild_inventory`: `stock_qty = 0`,
`avg_cost = 0`. -/
def reset_item (it : Item) : Item := { it with stock_qty := 0, avg_cost := 0 }

/-- The `_rebuild_inventory`: reset every item, then replay all merged events
in sorted order. -/
def rebuild_inventory (items : List Item) (purchases : List Purchase)
    (pitems : List PurchaseItem) (usages : List StockUsage) : List Item :=
  (inv_events purchases pitems usages).foldl apply_inv_event (items.map reset_item)

/-! ### Incremental stock adjustments used by purchase/usage routes -/

/-- The `_reverse_purchase_stock` applied to the item the purchase line points
at: subtract the old quantity; if the stock would drop to zero or below,
reset both stock and average cost to zero; otherwise subtract the old
line's total cost from the current valuation (clamped at zero) and divide
by the remaining quantity. -/
def reverse_purchase_one (item : Item) (pitem : PurchaseItem) : Item :=
  let old_qty := pitem.qty
  let old_price := pitem.price
  if old_qty ≤ 0 then item
  else
    let cur_qty := item.stock_qty
    let cur_avg := item.avg_cost
    let total_cost_cur := cur_qty * cur_avg
    let total_cost_old := old_qty * old_price
    let new_qty := cur_qty - old_qty
    if new_qty ≤ 0 then { item with stock_qty := 0, avg_cost := 0 }
    else
      let raw := total_cost_cur - total_cost_old
      let new_total_cost := if raw < 0 then 0 else raw
      { item with stock_qty := new_qty, avg_cost := new_total_cost / new_qty }

/-- The `_reverse_purchase_stock` over the item table (no matching item means
no change). -/
def reverse_purchase_stock (items : List Item) (pitem : PurchaseItem) : List Item :=
  items.map (fun it => if it.id == pitem.item_id then reverse_purchase_one it pitem else it)

/-- The `_apply_purchase_stock`: skip non-positive quantities, otherwise add
the stock and recompute the weighted-average cost. -/
def apply_purchase_stock (item : Item) (qty price : ℚ) : Item :=
  if qty ≤ 0 then item
  else
    let total_cost_existing := item.stock_qty * item.avg_cost
    let total_cost_new := qty * price
    let new_qty := item.stock_qty + qty
    { item with
      stock_qty := new_qty,
      avg_cost := if new_qty == 0 then 0 else (total_cost_existing + total_cost_new) / new_qty }

/-- Stock effect of creating a stock usage (`stock_usage_home`): the
request is rejected (`none`) when the current stock is below the
requested quantity, else the stock is decremented. -/
def stock_usage_apply (item : Item) (qty : ℚ) : Option Item :=
  if item.stock_qty < qty then none
  else some { item with stock_qty := item.stock_qty - qty }

/-- Stock effect of deleting a stock usage (`stock_usage_delete`): the
recorded quantity is added back. -/
def stock_usage_restore (item : Item) (qty : ℚ) : Item :=
  { item with stock_qty := item.stock_qty + qty }

/-! ### Settlement recomputation (routes.py lines 3350-3391) -/

/-- Sum of `APayment.amount` linked to a purchase id. -/
def ap_paid_total (payments : List APayment) (purchase_id : Nat) : ℚ :=
  ((payments.filter (fun p => p.purchase_id == some purchase_id)).map
    (fun p => p.amount)).sum

/-- The `_recalc_purchase_paid_flags`: `is_paid` iff the linked payments reach
the total and the total is positive (rows with falsy id are skipped). -/
def recalc_purchase_paid_flags (purchases : List Purchase)
    (payments : List APayment) : List Purchase :=
  purchases.map (fun p =>
    if p.id == 0 then p
    else { p with is_paid := decide (ap_paid_total payments p.id ≥ p.total_amount ∧
                                     p.total_amount > 0) })

/-- Sum of `ARPayment.amount` linked to an invoice id. -/
def ar_paid_total (payments : List ARPayment) (invoice_id : Nat) : ℚ :=
  ((payments.filter (fun p => p.invoice_id == invoice_id)).map
    (fun p => p.amount)).sum

/-- The `_recalc_invoice_paid_fields` on one invoice: set `paid_amount` to the
raw payment sum, then derive the status; only the `paid` branch clamps
`paid_amount` down to the total. -/
def recalc_invoice_paid_one (payments : List ARPayment) (inv : SalesInvoice) :
    SalesInvoice :=
  let total_paid := ar_paid_total payments inv.id
  let total := inv.total_amount
  if total ≤ 0 then { inv with paid_amount := total_paid, status := "unpaid" }
  else if total_paid ≤ 0 then { inv with paid_amount := total_paid, status := "unpaid" }
  else if total_paid ≥ total then { inv with paid_amount := total, status := "paid" }
  else { inv with paid_amount := total_paid, status := "partial" }

/-- The `_recalc_invoice_paid_fields` over the invoice table. -/
def recalc_invoice_paid_fields (invoices : List SalesInvoice)
    (payments : List ARPayment) : List SalesInvoice :=
  invoices.map (recalc_invoice_paid_one payments)

/-! ### Database state and the rebuild engine (routes.py lines 3462-3529)

`next_entry_id` models the autoincrementing primary key of
`journal_entries`: a rebuild never reuses previously issued ids. -/

/-- The per-deployment database state. -/
structure Db where
  accounts : List Account
  items : List Item
  cash_transactions : List CashTransaction
  purchases : List Purchase
  purchase_items : List PurchaseItem
  ap_payments : List APayment
  sales_invoices : List SalesInvoice
  ar_payments : List ARPayment
  stock_usages : List StockUsage
  journal_entries : List JournalEntry
  next_entry_id : Nat
deriving DecidableEq

/-- Run a fallible journal builder over a list of source rows, collecting
the built entries; the first raised error aborts the whole run. -/
def build_all {α : Type} (build : α → Except String JournalEntry) :
    List α → Except String (List JournalEntry)
  | [] => .ok []
  | x :: xs => do
    let e ← build x
    let es ← build_all build xs
    .ok (e :: es)

/-- Give the entries the consecutive primary keys `first`, `first + 1`, …
issued by the autoincrement on flush. -/
def assign_entry_ids (first : Nat) : List JournalEntry → List JournalEntry
  | [] => []
  | e :: es => { e with id := first } :: assign_entry_ids (first + 1) es

/-- The entry id a source row with key `k` received when the rows were
processed in the given order starting at id `first`. -/
def ref_assign {α : Type} (ident : α → Nat) (first : Nat) :
    List α → Nat → Option Nat
  | [], _ => none
  | x :: xs, k => if ident x == k then some first else ref_assign ident (first + 1) xs k

/-- AR-payment pass of `_rebuild_all_journals`: a payment whose invoice is
missing is skipped (no entry, back-reference left null); otherwise an
entry is built and the payment's id is associated with the entry id. -/
def build_ar_entries (invoices : List SalesInvoice) (first : Nat) :
    List ARPayment → List JournalEntry × List (Nat × Nat)
  | [] => ([], [])
  | p :: rest =>
    match invoices.find? (fun i => i.id == p.invoice_id) with
    | none => build_ar_entries invoices first rest
    | some inv =>
      let res := build_ar_entries invoices (first + 1) rest
      ({ create_journal_for_ar_payment p inv with id := first } :: res.1,
        (p.id, first) :: res.2)

/-- Look up an assignment made by `build_ar_entries`. -/
def lookup_assign (assignments : List (Nat × Nat)) (k : Nat) : Option Nat :=
  (assignments.find? (fun a => a.1 == k)).map (fun a => a.2)

/-- Sort key of every per-kind rebuild query: ascending `(date, id)`. -/
def sort_cash (l : List CashTransaction) : List CashTransaction :=
  sortBy2 (fun t => (t.date, t.id)) l

/-- Purchases in ascending `(date, id)` order. -/
def sort_purchases (l : List Purchase) : List Purchase :=
  sortBy2 (fun p => (p.date, p.id)) l

/-- AP payments in ascending `(date, id)` order. -/
def sort_ap_payments (l : List APayment) : List APayment :=
  sortBy2 (fun p => (p.date, p.id)) l

/-- Stock usages in ascending `(date, id)` order. -/
def sort_usages (l : List StockUsage) : List StockUsage :=
  sortBy2 (fun u => (u.date, u.id)) l

/-- Sales invoices in ascending `(date, id)` order. -/
def sort_invoices (l : List SalesInvoice) : List SalesInvoice :=
  sortBy2 (fun i => (i.date, i.id)) l

/-- AR payments in ascending `(date, id)` order. -/
def sort_ar_payments (l : List ARPayment) : List ARPayment :=
  sortBy2 (fun p => (p.date, p.id)) l

/-- The successful result of `_rebuild_all_journals`, given the entries
`pb`, `ab`, `ub` built for the three fallible kinds: all previous journal
entries are discarded and replaced by the per-kind rebuilt entries
carrying fresh consecutive ids, and every source transaction's
back-reference is re-pointed at its fresh entry (an AR payment whose
invoice is missing keeps the null reference the reset gave it). -/
def rebuilt_db (db : Db) (pb ab ub : List JournalEntry) : Db :=
  let n0 := db.next_entry_id
  let cashS := sort_cash db.cash_transactions
  let cash_built := cashS.map create_journal_for_cash
  let n1 := n0 + cash_built.length
  let purchS := sort_purchases db.purchases
  let n2 := n1 + pb.length
  let apS := sort_ap_payments db.ap_payments
  let n3 := n2 + ab.length
  let suS := sort_usages db.stock_usages
  let n4 := n3 + ub.length
  let invS := sort_invoices db.sales_invoices
  let inv_built := invS.map create_journal_for_invoice
  let n5 := n4 + inv_built.length
  let arS := sort_ar_payments db.ar_payments
  let ar_res := build_ar_entries db.sales_invoices n5 arS
  { db with
    journal_entries :=
      assign_entry_ids n0 cash_built ++ assign_entry_ids n1 pb ++
      assign_entry_ids n2 ab ++ assign_entry_ids n3 ub ++
      assign_entry_ids n4 inv_built ++ ar_res.1,
    next_entry_id := n5 + ar_res.1.length,
    cash_transactions := db.cash_transactions.map
      (fun t => { t with journal_entry_id := ref_assign (fun x => x.id) n0 cashS t.id }),
    purchases := db.purchases.map
      (fun p => { p with journal_entry_id := ref_assign (fun x => x.id) n1 purchS p.id }),
    ap_payments := db.ap_payments.map
      (fun p => { p with journal_entry_id := ref_assign (fun x => x.id) n2 apS p.id }),
    stock_usages := db.stock_usages.map
      (fun u => { u with journal_entry_id := ref_assign (fun x => x.id) n3 suS u.id }),
    sales_invoices := db.sales_invoices.map
      (fun i => { i with journal_entry_id := ref_assign (fun x => x.id) n4 invS i.id }),
    ar_payments := db.ar_payments.map
      (fun p => { p with journal_entry_id := lookup_assign ar_res.2 p.id }) }

/-- The `_rebuild_all_journals`: drop every journal entry and line, null all
back-references, then for each kind in turn (cash, purchase, AP payment,
stock usage, sales invoice, AR payment) rebuild entries in ascending
`(date, id)` order, assigning fresh entry ids and reattaching the
back-references; a raised `MissingAccount` aborts the whole rebuild with
nothing persisted. -/
def rebuild_all_journals (db : Db) : Except String Db := do
  let pb ← build_all (create_journal_for_purchase db.accounts)
    (sort_purchases db.purchases)
  let ab ← build_all (create_journal_for_ap_payment db.accounts)
    (sort_ap_payments db.ap_payments)
  let ub ← build_all (create_journal_for_stock_usage db.accounts)
    (sort_usages db.stock_usages)
  .ok (rebuilt_db db pb ab ub)

/-- Steps 1-3 of `_rebuild_everything`: replay inventory, recompute
purchase paid flags, recompute invoice paid fields.  Each step reads only
lists the previous steps left untouched, so the three updates commute
into one record update. -/
def staged_db (db : Db) : Db :=
  { db with
    items := rebuild_inventory db.items db.purchases db.purchase_items db.stock_usages,
    purchases := recalc_purchase_paid_flags db.purchases db.ap_payments,
    sales_invoices := recalc_invoice_paid_fields db.sales_invoices db.ar_payments }

/-- The `_rebuild_everything`: replay inventory, recompute purchase paid
flags, recompute invoice paid fields, then regenerate every journal
entry; an error anywhere abandons the whole recomputation. -/
def rebuild_everything (db : Db) : Except String Db :=
  rebuild_all_journals (staged_db db)

/-- The persisted content of a journal entry apart from its surrogate
primary key: date, memo, source tag, source id and the owned lines. -/
def entry_body (e : JournalEntry) : ℚ × Option String × String × Option Nat × List JournalLine :=
  (e.date, e.memo, e.source, e.source_id, e.lines)

/-! ### Claim C1 — tenant scoping of the balance query -/

/-- A journal entry that belongs to tenant 2 (every line included). -/
def c1_entry : JournalEntry :=
  { id := 1, tenant := some 2, date := 5, memo := none, source := "cash",
    source_id := some 1,
    lines := [{ tenant := some 2, account_code := "40011",
                account_name := "Pendapatan", debit := 0, credit := 500 }] }

/-- C1: the claim says the balance query sums only the lines of journal
entries belonging to the querying tenant, lines of any other tenant never
contributing.  The source's `_account_balance` carries no tenant filter at
all: on a database whose only entry (and line) belongs to tenant 2, the
query still returns `-500`, while the tenant-scoped balance the
specification requires for tenant 1 is `0`. -/
theorem account_balance_not_tenant_scoped :
    account_balance [c1_entry] "40011" none none = -500 ∧
    (∀ e ∈ [c1_entry], e.tenant = some 2) ∧
    account_balance_tenant_scoped 1 [c1_entry] "40011" none none = 0 := by
  decide

/-! ### Claim C4 — every built entry has exactly two balanced lines -/

/-- C4: each of the six journal builders produces an entry with exactly
two lines, each carrying a denormalized account code and name, whose
debit total equals its credit total (exact equality, hence within the
1e-4 tolerance). -/
theorem journal_builders_two_lines_balanced :
    (∀ tx : CashTransaction, (create_journal_for_cash tx).lines.length = 2 ∧
      sum_debits (create_journal_for_cash tx) = sum_credits (create_journal_for_cash tx)) ∧
    (∀ (accounts : List Account) (p : Purchase) (e : JournalEntry),
      create_journal_for_purchase accounts p = .ok e →
      e.lines.length = 2 ∧ sum_debits e = sum_credits e) ∧
    (∀ (accounts : List Account) (pay : APayment) (e : JournalEntry),
      create_journal_for_ap_payment accounts pay = .ok e →
      e.lines.length = 2 ∧ sum_debits e = sum_credits e) ∧
    (∀ (accounts : List Account) (u : StockUsage) (e : JournalEntry),
      create_journal_for_stock_usage accounts u = .ok e →
      e.lines.length = 2 ∧ sum_debits e = sum_credits e) ∧
    (∀ inv : SalesInvoice, (create_journal_for_invoice inv).lines.length = 2 ∧
      sum_debits (create_journal_for_invoice inv) =
        sum_credits (create_journal_for_invoice inv)) ∧
    (∀ (p : ARPayment) (inv : SalesInvoice),
      (create_journal_for_ar_payment p inv).lines.length = 2 ∧
      sum_debits (create_journal_for_ar_payment p inv) =
        sum_credits (create_journal_for_ar_payment p inv)) := by
  refine ⟨?_, ?_, ?_, ?_, ?_, ?_⟩
  · intro tx
    unfold create_journal_for_cash
    split <;> simp [sum_debits, sum_credits]
  · intro accounts p e h
    unfold create_journal_for_purchase at h
    split at h
    · injection h with h
      subst h
      simp [sum_debits, sum_credits]
    · exact absurd h (by simp)
  · intro accounts pay e h
    unfold create_journal_for_ap_payment at h
    split at h
    · injection h with h
      subst h
      simp [sum_debits, sum_credits]
    · exact absurd h (by simp)
  · intro accounts u e h
    unfold create_journal_for_stock_usage at h
    split at h
    · injection h with h
      subst h
      simp [sum_debits, sum_credits]
    · exact absurd h (by simp)
  · intro inv
    simp [create_journal_for_invoice, sum_debits, sum_credits]
  · intro p inv
    simp [create_journal_for_ar_payment, sum_debits, sum_credits]

/-- Chart of accounts used by the C4 witness. -/
def c4_accounts : List Account :=
  [{ tenant := 1, code := "10051", name := "Persediaan" },
   { tenant := 1, code := "20011", name := "Hutang Usaha" },
   { tenant := 1, code := "10011", name := "Kas" },
   { tenant := 1, code := "50011", name := "HPP Bahan" }]

/-- Purchase used by the C4 witness. -/
def c4_purchase : Purchase :=
  { id := 3, tenant := none, date := 2, total_amount := 250, is_paid := false,
    memo := none, journal_entry_id := none }

/-- The entry the purchase builder produces on the C4 witness data. -/
def c4_entry : JournalEntry :=
  { id := 0, tenant := none, date := 2, memo := none, source := "purchase",
    source_id := some 3,
    lines := [
      { tenant := none, account_code := "10051", account_name := "Persediaan",
        debit := 250, credit := 0 },
      { tenant := none, account_code := "20011", account_name := "Hutang Usaha",
        debit := 0, credit := 250 }] }

/-- Witness for C4: the purchase builder on concrete data yields a
two-line balanced entry. -/
theorem journal_builders_two_lines_balanced_witness :
    c4_entry.lines.length = 2 ∧ sum_debits c4_entry = sum_credits c4_entry :=
  journal_builders_two_lines_balanced.2.1 c4_accounts c4_purchase c4_entry rfl

/-! ### Claim C6 — invoice paid-amount recomputation -/

/-- Invoice with a zero total (the schema default) used as the C6
counterexample. -/
def c6_invoice : SalesInvoice :=
  { id := 1, tenant := none, date := 0, invoice_no := "INV-1",
    customer_name := "A", ar_account_code := "10031", ar_account_name := "Piutang",
    revenue_account_code := "40011", revenue_account_name := "Pendapatan",
    total_amount := 0, paid_amount := 0, status := "unpaid",
    journal_entry_id := none }

/-- An AR payment of 100 linked to the zero-total invoice. -/
def c6_payment : ARPayment :=
  { id := 1, date := 0, invoice_id := 1, invoice_no := "INV-1",
    cash_account_code := "10011", cash_account_name := "Kas", amount := 100,
    memo := none, journal_entry_id := none }

/-- C6 counterexample: the claim says `paid_amount` is the payment sum
clamped to the invoice total, hence never exceeds the total.  The source
clamps only inside the `paid` branch, which requires `total > 0`: on an
invoice with total 0 and a linked payment of 100 the recomputation leaves
`paid_amount = 100 > 0 = total_amount`. -/
theorem invoice_paid_recalc_exceeds_total :
    (recalc_invoice_paid_fields [c6_invoice] [c6_payment]).map
      (fun i => (i.paid_amount, i.status)) = [((100 : ℚ), "unpaid")] ∧
    c6_invoice.total_amount = 0 ∧ ¬((100 : ℚ) ≤ c6_invoice.total_amount) := by
  decide

/-- C6 amended: `paid_amount` is the raw sum of linked AR payment
amounts, clamped down to the invoice total only when the sum reaches a
positive total; the status is unpaid when the total or the sum is
non-positive, paid when the sum reaches a positive total, and partial
otherwise.  In particular `paid_amount` cannot exceed a positive total,
but can exceed a non-positive one. -/
theorem invoice_paid_recalc_amended (invoices : List SalesInvoice)
    (payments : List ARPayment) :
    recalc_invoice_paid_fields invoices payments = invoices.map (fun inv =>
      { inv with
        paid_amount :=
          if 0 < inv.total_amount ∧ inv.total_amount ≤ ar_paid_total payments inv.id
          then inv.total_amount else ar_paid_total payments inv.id,
        status :=
          if inv.total_amount ≤ 0 ∨ ar_paid_total payments inv.id ≤ 0 then "unpaid"
          else if inv.total_amount ≤ ar_paid_total payments inv.id then "paid"
          else "partial" }) := by
  unfold recalc_invoice_paid_fields
  apply List.map_congr_left
  intro inv _
  unfold recalc_invoice_paid_one
  set s := ar_paid_total payments inv.id with hs
  set t := inv.total_amount with ht
  by_cases h1 : t ≤ 0
  · rw [if_pos h1, if_neg (fun hc => absurd hc.1 (not_lt.mpr h1)), if_pos (Or.inl h1)]
  · by_cases h2 : s ≤ 0
    · rw [if_neg h1, if_pos h2, if_neg (fun hc => h1 (hc.2.trans h2)),
        if_pos (Or.inr h2)]
    · by_cases h3 : t ≤ s
      · rw [if_neg h1, if_neg h2, if_pos (ge_iff_le.mpr h3),
          if_pos ⟨not_le.mp h1, h3⟩, if_neg (fun hc => hc.elim h1 h2), if_pos h3]
      · rw [if_neg h1, if_neg h2, if_neg (fun hc => h3 (ge_iff_le.mp hc)),
          if_neg (fun hc => h3 hc.2), if_neg (fun hc => hc.elim h1 h2), if_neg h3]

/-! ### Claim C7 — account lookup in purchase / AP-payment builders -/

/-- Accounts table whose `10051` and `20011` rows belong to tenant 2
only. -/
def c7_accounts : List Account :=
  [{ tenant := 2, code := "10051", name := "Persediaan" },
   { tenant := 2, code := "20011", name := "Hutang Usaha" }]

/-- A purchase belonging to tenant 1, whose own chart has neither
account. -/
def c7_purchase : Purchase :=
  { id := 7, tenant := some 1, date := 3, total_amount := 100, is_paid := false,
    memo := none, journal_entry_id := none }

/-- An AP payment used for the empty-table failure case of C7. -/
def c7_ap_payment : APayment :=
  { id := 9, date := 3, purchase_id := some 7, cash_account_code := "10011",
    cash_account_name := "Kas", amount := 50, memo := none,
    journal_entry_id := none }

/-- C7: the claim says the build fails with MissingAccount exactly when
the required code does not exist *for that tenant*.  The source looks the
codes up with `Account.query.filter_by(code=...)` — no tenant filter — so
for a tenant-1 purchase whose tenant owns neither `10051` nor `20011`,
the build still succeeds (snapshotting tenant 2's account names) as long
as any tenant has the codes; it fails only when a code is absent from the
whole table. -/
theorem purchase_journal_lookup_not_tenant_scoped :
    (∀ a ∈ c7_accounts, a.tenant = 2) ∧
    c7_purchase.tenant = some 1 ∧
    create_journal_for_purchase c7_accounts c7_purchase =
      .ok { id := 0, tenant := none, date := 3, memo := none, source := "purchase",
            source_id := some 7,
            lines := [
              { tenant := none, account_code := "10051",
                account_name := "Persediaan", debit := 100, credit := 0 },
              { tenant := none, account_code := "20011",
                account_name := "Hutang Usaha", debit := 0, credit := 100 }] } ∧
    create_journal_for_purchase [] c7_purchase = .error "MissingAccount" ∧
    create_journal_for_ap_payment [] c7_ap_payment = .error "MissingAccount" := by
  refine ⟨?_, rfl, rfl, rfl, rfl⟩
  intro a ha
  fin_cases ha <;> rfl

/-! ### Claims C8 and C10 — the cash journal shapes -/

/-- Scenario B transaction: direction "in", amount 500, cash account
"10011", counter account "40011". -/
def c8_tx : CashTransaction :=
  { id := 1, tenant := none, date := 0, direction := "in",
    cash_account_code := "10011", cash_account_name := "Kas",
    counter_account_code := "40011", counter_account_name := "Pendapatan",
    amount := 500, memo := none, journal_entry_id := none }

/-- C8: a cash transaction with direction "in" debits the cash account
and credits the counter account for the full amount; direction "out"
swaps the two roles; Scenario B is the concrete instance. -/
theorem cash_journal_in_out_shapes :
    (∀ tx : CashTransaction, tx.direction = "in" →
      (create_journal_for_cash tx).lines = [
        { tenant := none, account_code := tx.cash_account_code,
          account_name := tx.cash_account_name, debit := tx.amount, credit := 0 },
        { tenant := none, account_code := tx.counter_account_code,
          account_name := tx.counter_account_name, debit := 0, credit := tx.amount }]) ∧
    (∀ tx : CashTransaction, tx.direction = "out" →
      (create_journal_for_cash tx).lines = [
        { tenant := none, account_code := tx.counter_account_code,
          account_name := tx.counter_account_name, debit := tx.amount, credit := 0 },
        { tenant := none, account_code := tx.cash_account_code,
          account_name := tx.cash_account_name, debit := 0, credit := tx.amount }]) ∧
    (create_journal_for_cash c8_tx).lines = [
      { tenant := none, account_code := "10011", account_name := "Kas",
        debit := 500, credit := 0 },
      { tenant := none, account_code := "40011", account_name := "Pendapatan",
        debit := 0, credit := 500 }] := by
  refine ⟨?_, ?_, by decide⟩
  · intro tx h
    simp [create_journal_for_cash, h]
  · intro tx h
    simp [create_journal_for_cash, h]

/-- Witness for C8: the "in" shape on the Scenario B transaction. -/
theorem cash_journal_in_out_shapes_witness :
    (create_journal_for_cash c8_tx).lines = [
      { tenant := none, account_code := "10011", account_name := "Kas",
        debit := 500, credit := 0 },
      { tenant := none, account_code := "40011", account_name := "Pendapatan",
        debit := 0, credit := 500 }] :=
  cash_journal_in_out_shapes.1 c8_tx rfl

/-- A cash transaction with a direction that is neither "in" nor "out". -/
def c10_tx : CashTransaction :=
  { id := 2, tenant := none, date := 0, direction := "transfer",
    cash_account_code := "10011", cash_account_name := "Kas",
    counter_account_code := "60011", counter_account_name := "Beban Lain",
    amount := 75, memo := none, journal_entry_id := none }

/-- C10: the cash builder is total over the direction field — every
direction other than exactly "in" (not just "out") falls into the `else`
branch and produces the cash-out shape. -/
theorem cash_journal_non_in_defaults_to_out :
    (∀ tx : CashTransaction, tx.direction ≠ "in" →
      (create_journal_for_cash tx).lines = [
        { tenant := none, account_code := tx.counter_account_code,
          account_name := tx.counter_account_name, debit := tx.amount, credit := 0 },
        { tenant := none, account_code := tx.cash_account_code,
          account_name := tx.cash_account_name, debit := 0, credit := tx.amount }]) ∧
    (create_journal_for_cash c10_tx).lines = [
      { tenant := none, account_code := "60011", account_name := "Beban Lain",
        debit := 75, credit := 0 },
      { tenant := none, account_code := "10011", account_name := "Kas",
        debit := 0, credit := 75 }] := by
  refine ⟨?_, by decide⟩
  intro tx h
  simp [create_journal_for_cash, h]

/-- Witness for C10: the invalid direction "transfer" produces the
cash-out shape. -/
theorem cash_journal_non_in_defaults_to_out_witness :
    (create_journal_for_cash c10_tx).lines = [
      { tenant := none, account_code := "60011", account_name := "Beban Lain",
        debit := 75, credit := 0 },
      { tenant := none, account_code := "10011", account_name := "Kas",
        debit := 0, credit := 75 }] :=
  cash_journal_non_in_defaults_to_out.1 c10_tx (by decide)

/-! ### Claim C2 — inventory replay -/

/-- Scenario A item, starting from empty stock. -/
def scenA_item : Item := { id := 1, tenant := none, stock_qty := 0, avg_cost := 0 }

/-- Scenario A purchases: 10 units at 100 on day 1, 10 units at 200 on
day 2. -/
def scenA_purchases : List Purchase :=
  [{ id := 1, tenant := none, date := 1, total_amount := 1000, is_paid := false,
     memo := none, journal_entry_id := none },
   { id := 2, tenant := none, date := 2, total_amount := 2000, is_paid := false,
     memo := none, journal_entry_id := none }]

/-- Scenario A purchase lines. -/
def scenA_pitems : List PurchaseItem :=
  [{ id := 1, purchase_id := 1, item_id := 1, qty := 10, price := 100 },
   { id := 2, purchase_id := 2, item_id := 1, qty := 10, price := 200 }]

/-- Scenario A usage: 5 units on day 3 (consumed cost 5 * 150 = 750). -/
def scenA_usages : List StockUsage :=
  [{ id := 1, date := 3, item_id := 1, qty := 5, unit_cost := 150,
     total_cost := 750, hpp_account_code := "50011", memo := none,
     journal_entry_id := none }]

/-- C2: the replay's event list is sorted by date ascending with
purchases (flag 0) before usages (flag 1) on equal dates and contains
exactly the purchase-join rows and the usages; a purchase of `q > 0` at
price `p` on a state with `Q0 ≥ 0` yields `Q0 + q` and
`(Q0*C0 + q*p)/(Q0+q)` (the `new_qty ≤ 0` guard can then never fire); a
usage of `q > 0` yields `max 0 (Q0 - q)` with the average cost untouched;
Scenario A replays to stock 15 at average cost 150. -/
theorem inventory_replay_spec :
    (∀ (purchases : List Purchase) (pitems : List PurchaseItem)
        (usages : List StockUsage),
      List.Pairwise (fun e₁ e₂ : InvEvent =>
          e₁.date < e₂.date ∨ (e₁.date = e₂.date ∧ e₁.flag ≤ e₂.flag))
        (inv_events purchases pitems usages) ∧
      List.Perm (inv_events purchases pitems usages)
        ((pitems.filterMap (fun pi =>
            (purchases.find? (fun p => p.id == pi.purchase_id)).map
              (fun p => { p_date := p.date, p_id := p.id, pitem := pi }))).map
                purchase_event ++
          usages.map usage_event)) ∧
    (∀ (it : Item) (qty price : ℚ), 0 < qty → 0 ≤ it.stock_qty →
      apply_purchase_event it qty price =
        { it with
          stock_qty := it.stock_qty + qty,
          avg_cost := (it.stock_qty * it.avg_cost + qty * price) /
            (it.stock_qty + qty) }) ∧
    (∀ (it : Item) (qty : ℚ), 0 < qty →
      apply_usage_event it qty =
        { it with stock_qty := max 0 (it.stock_qty - qty) }) ∧
    rebuild_inventory [scenA_item] scenA_purchases scenA_pitems scenA_usages =
      [{ id := 1, tenant := none, stock_qty := 15, avg_cost := 150 }] := by
  refine ⟨?_, ?_, ?_, by decide⟩
  · intro purchases pitems usages
    constructor
    · exact sortBy2_sorted (fun e : InvEvent => (e.date, e.flag)) _
    · refine (sortBy2_perm _ _).trans (List.Perm.append ?_ ?_)
      · exact (sortBy3_perm _ _).map purchase_event
      · exact (sortBy2_perm _ _).map usage_event
  · intro it qty price hq hs
    simp only [apply_purchase_event, if_neg (not_le.mpr hq)]
    rw [if_pos (by linarith : (0 : ℚ) < it.stock_qty + qty)]
  · intro it qty hq
    simp only [apply_usage_event, if_neg (not_le.mpr hq)]
    rcases lt_or_le (it.stock_qty - qty) 0 with h | h
    · rw [if_pos h, max_eq_left h.le]
    · rw [if_neg (not_lt.mpr h), max_eq_right h]

/-- Witness for C2: both replay step formulas at the Scenario A numbers. -/
theorem inventory_replay_spec_witness :
    apply_purchase_event { id := 1, tenant := none, stock_qty := 10, avg_cost := 100 }
        10 200 = { id := 1, tenant := none, stock_qty := 20, avg_cost := 150 } ∧
    apply_usage_event { id := 1, tenant := none, stock_qty := 20, avg_cost := 150 } 5 =
      { id := 1, tenant := none, stock_qty := 15, avg_cost := 150 } := by
  constructor
  · rw [inventory_replay_spec.2.1 _ 10 200 (by decide) (by decide)]
    decide
  · rw [inventory_replay_spec.2.2.1 _ 5 (by decide)]
    decide

/-! ### Claim C9 — stock quantities never go negative -/

theorem apply_purchase_event_nonneg (it : Item) (qty price : ℚ)
    (h : 0 ≤ it.stock_qty) : 0 ≤ (apply_purchase_event it qty price).stock_qty := by
  by_cases hq : qty ≤ 0
  · simpa [apply_purchase_event, hq] using h
  · simp [apply_purchase_event, hq]
    linarith [not_le.mp hq]

theorem apply_usage_event_nonneg (it : Item) (qty : ℚ)
    (h : 0 ≤ it.stock_qty) : 0 ≤ (apply_usage_event it qty).stock_qty := by
  by_cases hq : qty ≤ 0
  · simpa [apply_usage_event, hq] using h
  · simp only [apply_usage_event, if_neg hq]
    split_ifs with h2
    · simp
    · simpa using not_lt.mp h2

theorem apply_inv_event_nonneg (items : List Item) (e : InvEvent)
    (h : ∀ it ∈ items, 0 ≤ it.stock_qty) :
    ∀ it ∈ apply_inv_event items e, 0 ≤ it.stock_qty := by
  intro it hit
  rcases List.mem_map.mp hit with ⟨x, hx, rfl⟩
  split_ifs with h1 h2
  · exact apply_purchase_event_nonneg x e.qty e.price (h x hx)
  · exact apply_usage_event_nonneg x e.qty (h x hx)
  · exact h x hx

theorem replay_nonneg (evs : List InvEvent) (items : List Item)
    (h : ∀ it ∈ items, 0 ≤ it.stock_qty) :
    ∀ it ∈ evs.foldl apply_inv_event items, 0 ≤ it.stock_qty := by
  induction evs generalizing items with
  | nil => simpa using h
  | cons e rest ih => exact ih _ (apply_inv_event_nonneg items e h)

/-- C9: the full replay leaves every item's stock non-negative (with no
hypothesis at all, since the replay starts from a reset); the
reverse/apply helpers of the purchase edit routes preserve
non-negativity; the stock-usage create path either rejects the request or
leaves a non-negative stock; restoring a recorded (non-negative) usage
quantity on deletion preserves non-negativity. -/
theorem stock_quantities_nonnegative :
    (∀ (items : List Item) (purchases : List Purchase)
        (pitems : List PurchaseItem) (usages : List StockUsage),
      ∀ it ∈ rebuild_inventory items purchases pitems usages, 0 ≤ it.stock_qty) ∧
    (∀ (items : List Item) (pitem : PurchaseItem),
      (∀ it ∈ items, 0 ≤ it.stock_qty) →
      ∀ it ∈ reverse_purchase_stock items pitem, 0 ≤ it.stock_qty) ∧
    (∀ (item : Item) (qty price : ℚ), 0 ≤ item.stock_qty →
      0 ≤ (apply_purchase_stock item qty price).stock_qty) ∧
    (∀ (item it' : Item) (qty : ℚ), stock_usage_apply item qty = some it' →
      0 ≤ it'.stock_qty) ∧
    (∀ (item : Item) (qty : ℚ), 0 ≤ item.stock_qty → 0 ≤ qty →
      0 ≤ (stock_usage_restore item qty).stock_qty) := by
  refine ⟨?_, ?_, ?_, ?_, ?_⟩
  · intro items purchases pitems usages
    apply replay_nonneg
    intro it hit
    rcases List.mem_map.mp hit with ⟨x, hx, rfl⟩
    simp [reset_item]
  · intro items pitem h it hit
    rcases List.mem_map.mp hit with ⟨x, hx, rfl⟩
    split_ifs with h1
    · simp only [reverse_purchase_one]
      split_ifs with h2 h3 h4
      · exact h x hx
      · simp
      · simpa using (not_le.mp h3).le
      · simpa using (not_le.mp h3).le
    · exact h x hx
  · intro item qty price h
    by_cases hq : qty ≤ 0
    · simpa [apply_purchase_stock, hq] using h
    · simp [apply_purchase_stock, hq]
      linarith [not_le.mp hq]
  · intro item it' qty h
    unfold stock_usage_apply at h
    split_ifs at h with h1
    · injection h with h
      subst h
      simpa using not_lt.mp h1
  · intro item qty h hq
    simpa [stock_usage_restore] using add_nonneg h hq

/-- Witness for C9: the hypotheses discharged on concrete stock states. -/
theorem stock_quantities_nonnegative_witness :
    (∀ it ∈ reverse_purchase_stock
        [{ id := 1, tenant := none, stock_qty := 10, avg_cost := 100 }]
        { id := 1, purchase_id := 1, item_id := 1, qty := 4, price := 50 },
      0 ≤ it.stock_qty) ∧
    0 ≤ (apply_purchase_stock { id := 1, tenant := none, stock_qty := 3, avg_cost := 20 }
          2 10).stock_qty ∧
    0 ≤ (stock_usage_restore { id := 1, tenant := none, stock_qty := 7, avg_cost := 5 }
          2).stock_qty :=
  ⟨stock_quantities_nonnegative.2.1 _ _ (by decide),
   stock_quantities_nonnegative.2.2.1 _ 2 10 (by decide),
   stock_quantities_nonnegative.2.2.2.2 _ 2 (by decide) (by decide)⟩

/-! ### Rebuild engine lemmas -/

theorem rebuild_all_journals_ok_iff (db db' : Db) :
    rebuild_all_journals db = .ok db' ↔
    ∃ pb ab ub,
      build_all (create_journal_for_purchase db.accounts)
        (sort_purchases db.purchases) = .ok pb ∧
      build_all (create_journal_for_ap_payment db.accounts)
        (sort_ap_payments db.ap_payments) = .ok ab ∧
      build_all (create_journal_for_stock_usage db.accounts)
        (sort_usages db.stock_usages) = .ok ub ∧
      db' = rebuilt_db db pb ab ub := by
  unfold rebuild_all_journals
  cases h1 : build_all (create_journal_for_purchase db.accounts)
      (sort_purchases db.purchases) with
  | error e =>
    exact ⟨fun h => Except.noConfusion h,
      fun ⟨pb', ab', ub', hp, ha, hu, _⟩ => Except.noConfusion hp⟩
  | ok pb =>
    cases h2 : build_all (create_journal_for_ap_payment db.accounts)
        (sort_ap_payments db.ap_payments) with
    | error e =>
      exact ⟨fun h => Except.noConfusion h,
        fun ⟨pb', ab', ub', hp, ha, hu, _⟩ => Except.noConfusion ha⟩
    | ok ab =>
      cases h3 : build_all (create_journal_for_stock_usage db.accounts)
          (sort_usages db.stock_usages) with
      | error e =>
        exact ⟨fun h => Except.noConfusion h,
          fun ⟨pb', ab', ub', hp, ha, hu, _⟩ => Except.noConfusion hu⟩
      | ok ub =>
        constructor
        · intro h
          have h' : Except.ok (rebuilt_db db pb ab ub) = Except.ok db' := h
          exact ⟨pb, ab, ub, rfl, rfl, rfl, ((Except.ok.injEq _ _).mp h').symm⟩
        · rintro ⟨pb', ab', ub', hp, ha, hu, rfl⟩
          injection hp with hp
          injection ha with ha
          injection hu with hu
          show Except.ok (rebuilt_db db pb ab ub) = _
          rw [hp, ha, hu]

theorem entry_body_set_id (e : JournalEntry) (n : Nat) :
    entry_body { e with id := n } = entry_body e := rfl

theorem assign_entry_ids_bodies (first : Nat) (l : List JournalEntry) :
    (assign_entry_ids first l).map entry_body = l.map entry_body := by
  induction l generalizing first with
  | nil => rfl
  | cons e es ih => simp [assign_entry_ids, entry_body_set_id, ih]

theorem build_ar_entries_bodies (invs : List SalesInvoice) (l : List ARPayment)
    (first : Nat) :
    (build_ar_entries invs first l).1.map entry_body =
      l.filterMap (fun p => (invs.find? (fun i => i.id == p.invoice_id)).map
        (fun inv => entry_body (create_journal_for_ar_payment p inv))) := by
  induction l generalizing first with
  | nil => rfl
  | cons p rest ih =>
    simp only [build_ar_entries, List.filterMap_cons]
    cases hq : invs.find? (fun i => i.id == p.invoice_id) with
    | none => simpa using ih first
    | some inv => simp [entry_body_set_id, ih]

theorem ref_assign_isSome {α : Type} (ident : α → Nat) (first k : Nat) (l : List α)
    (h : ∃ x ∈ l, ident x = k) : (ref_assign ident first l k).isSome = true := by
  induction l generalizing first with
  | nil =>
    rcases h with ⟨x, hx, _⟩
    exact absurd hx (List.not_mem_nil x)
  | cons y ys ih =>
    unfold ref_assign
    by_cases hy : ident y == k
    · rw [if_pos hy]; rfl
    · rw [if_neg hy]
      rcases h with ⟨x, hx, hxk⟩
      rcases List.mem_cons.mp hx with rfl | hx'
      · exact absurd (beq_iff_eq.mpr hxk) hy
      · exact ih (first + 1) ⟨x, hx', hxk⟩

theorem build_ar_entries_ref_isSome (invs : List SalesInvoice) (l : List ARPayment)
    (first : Nat) (p : ARPayment) (hp : p ∈ l)
    (hfind : (invs.find? (fun i => i.id == p.invoice_id)).isSome = true) :
    (lookup_assign (build_ar_entries invs first l).2 p.id).isSome = true := by
  induction l generalizing first with
  | nil => exact absurd hp (List.not_mem_nil p)
  | cons q rest ih =>
    rcases List.mem_cons.mp hp with rfl | hp'
    · unfold build_ar_entries
      cases hq : invs.find? (fun i => i.id == p.invoice_id) with
      | none =>
        rw [hq] at hfind
        exact absurd hfind (by simp)
      | some inv => simp [lookup_assign]
    · unfold build_ar_entries
      cases hq : invs.find? (fun i => i.id == q.invoice_id) with
      | none => exact ih first hp'
      | some inv =>
        by_cases hqq : q.id == p.id
        · simp [lookup_assign, hqq]
        · simpa [lookup_assign, List.find?_cons, hqq] using ih (first + 1) hp'

/-! ### Claim C5 — step 5 of the rebuild -/

/-- C5: on a successful run, `_rebuild_all_journals` leaves exactly the
freshly rebuilt entries (old entries and old back-references are
discarded — the result is computed from the source transactions alone),
processing each kind's transactions in ascending `(date, id)` order
(cash, then purchases, AP payments, stock usages, sales invoices, AR
payments), and reattaches a non-null back-reference to every source
transaction; for AR payments this holds under referential integrity
(every payment's invoice exists, the foreign-key constraint of the
schema). -/
theorem rebuild_journals_step5_spec (db db' : Db)
    (pb ab ub : List JournalEntry)
    (hpb : build_all (create_journal_for_purchase db.accounts)
      (sort_purchases db.purchases) = .ok pb)
    (hab : build_all (create_journal_for_ap_payment db.accounts)
      (sort_ap_payments db.ap_payments) = .ok ab)
    (hub : build_all (create_journal_for_stock_usage db.accounts)
      (sort_usages db.stock_usages) = .ok ub)
    (hraj : rebuild_all_journals db = .ok db') :
    (db'.journal_entries.map entry_body =
      (sort_cash db.cash_transactions).map
        (fun t => entry_body (create_journal_for_cash t)) ++
      pb.map entry_body ++ ab.map entry_body ++ ub.map entry_body ++
      (sort_invoices db.sales_invoices).map
        (fun i => entry_body (create_journal_for_invoice i)) ++
      (sort_ar_payments db.ar_payments).filterMap (fun p =>
        (db.sales_invoices.find? (fun i => i.id == p.invoice_id)).map
          (fun inv => entry_body (create_journal_for_ar_payment p inv)))) ∧
    (List.Perm (sort_cash db.cash_transactions) db.cash_transactions ∧
      List.Pairwise (fun a b : CashTransaction =>
        a.date < b.date ∨ (a.date = b.date ∧ a.id ≤ b.id))
        (sort_cash db.cash_transactions)) ∧
    (List.Perm (sort_purchases db.purchases) db.purchases ∧
      List.Pairwise (fun a b : Purchase =>
        a.date < b.date ∨ (a.date = b.date ∧ a.id ≤ b.id))
        (sort_purchases db.purchases)) ∧
    (List.Perm (sort_ap_payments db.ap_payments) db.ap_payments ∧
      List.Pairwise (fun a b : APayment =>
        a.date < b.date ∨ (a.date = b.date ∧ a.id ≤ b.id))
        (sort_ap_payments db.ap_payments)) ∧
    (List.Perm (sort_usages db.stock_usages) db.stock_usages ∧
      List.Pairwise (fun a b : StockUsage =>
        a.date < b.date ∨ (a.date = b.date ∧ a.id ≤ b.id))
        (sort_usages db.stock_usages)) ∧
    (List.Perm (sort_invoices db.sales_invoices) db.sales_invoices ∧
      List.Pairwise (fun a b : SalesInvoice =>
        a.date < b.date ∨ (a.date = b.date ∧ a.id ≤ b.id))
        (sort_invoices db.sales_invoices)) ∧
    (List.Perm (sort_ar_payments db.ar_payments) db.ar_payments ∧
      List.Pairwise (fun a b : ARPayment =>
        a.date < b.date ∨ (a.date = b.date ∧ a.id ≤ b.id))
        (sort_ar_payments db.ar_payments)) ∧
    (∀ t ∈ db'.cash_transactions, t.journal_entry_id.isSome = true) ∧
    (∀ p ∈ db'.purchases, p.journal_entry_id.isSome = true) ∧
    (∀ p ∈ db'.ap_payments, p.journal_entry_id.isSome = true) ∧
    (∀ u ∈ db'.stock_usages, u.journal_entry_id.isSome = true) ∧
    (∀ i ∈ db'.sales_invoices, i.journal_entry_id.isSome = true) ∧
    ((∀ p ∈ db.ar_payments,
        (db.sales_invoices.find? (fun i => i.id == p.invoice_id)).isSome = true) →
      ∀ p ∈ db'.ar_payments, p.journal_entry_id.isSome = true) := by
  rcases (rebuild_all_journals_ok_iff db db').mp hraj with
    ⟨pb', ab', ub', hpb', hab', hub', rfl⟩
  rw [hpb] at hpb'
  rw [hab] at hab'
  rw [hub] at hub'
  injection hpb' with hpb'
  injection hab' with hab'
  injection hub' with hub'
  subst hpb'
  subst hab'
  subst hub'
  refine ⟨?_, ⟨sortBy2_perm _ _, sortBy2_sorted (fun t : CashTransaction => (t.date, t.id)) _⟩,
    ⟨sortBy2_perm _ _, sortBy2_sorted (fun p : Purchase => (p.date, p.id)) _⟩,
    ⟨sortBy2_perm _ _, sortBy2_sorted (fun p : APayment => (p.date, p.id)) _⟩,
    ⟨sortBy2_perm _ _, sortBy2_sorted (fun u : StockUsage => (u.date, u.id)) _⟩,
    ⟨sortBy2_perm _ _, sortBy2_sorted (fun i : SalesInvoice => (i.date, i.id)) _⟩,
    ⟨sortBy2_perm _ _, sortBy2_sorted (fun p : ARPayment => (p.date, p.id)) _⟩,
    ?_, ?_, ?_, ?_, ?_, ?_⟩
  · simp only [rebuilt_db, List.map_append, assign_entry_ids_bodies,
      build_ar_entries_bodies, List.map_map]
    rfl
  · intro t ht
    simp only [rebuilt_db] at ht
    rcases List.mem_map.mp ht with ⟨x, hx, rfl⟩
    exact ref_assign_isSome _ _ _ _
      ⟨x, (sortBy2_perm _ _).mem_iff.mpr hx, rfl⟩
  · intro p hp
    simp only [rebuilt_db] at hp
    rcases List.mem_map.mp hp with ⟨x, hx, rfl⟩
    exact ref_assign_isSome _ _ _ _
      ⟨x, (sortBy2_perm _ _).mem_iff.mpr hx, rfl⟩
  · intro p hp
    simp only [rebuilt_db] at hp
    rcases List.mem_map.mp hp with ⟨x, hx, rfl⟩
    exact ref_assign_isSome _ _ _ _
      ⟨x, (sortBy2_perm _ _).mem_iff.mpr hx, rfl⟩
  · intro u hu
    simp only [rebuilt_db] at hu
    rcases List.mem_map.mp hu with ⟨x, hx, rfl⟩
    exact ref_assign_isSome _ _ _ _
      ⟨x, (sortBy2_perm _ _).mem_iff.mpr hx, rfl⟩
  · intro i hi
    simp only [rebuilt_db] at hi
    rcases List.mem_map.mp hi with ⟨x, hx, rfl⟩
    exact ref_assign_isSome _ _ _ _
      ⟨x, (sortBy2_perm _ _).mem_iff.mpr hx, rfl⟩
  · intro hintegrity p hp
    simp only [rebuilt_db] at hp
    rcases List.mem_map.mp hp with ⟨x, hx, rfl⟩
    exact build_ar_entries_ref_isSome _ _ _ x
      ((sortBy2_perm _ _).mem_iff.mpr hx) (hintegrity x hx)

/-- Cash transaction of the C5 witness database. -/
def w5_cash : CashTransaction :=
  { id := 1, tenant := none, date := 1, direction := "in",
    cash_account_code := "10011", cash_account_name := "Kas",
    counter_account_code := "40011", counter_account_name := "Pendapatan",
    amount := 500, memo := none, journal_entry_id := some 99 }

/-- Purchase of the C5 witness database. -/
def w5_purchase : Purchase :=
  { id := 1, tenant := none, date := 2, total_amount := 300, is_paid := false,
    memo := none, journal_entry_id := none }

/-- AP payment of the C5 witness database. -/
def w5_ap : APayment :=
  { id := 1, date := 3, purchase_id := some 1, cash_account_code := "10011",
    cash_account_name := "Kas", amount := 300, memo := none,
    journal_entry_id := none }

/-- Stock usage of the C5 witness database. -/
def w5_usage : StockUsage :=
  { id := 1, date := 4, item_id := 1, qty := 2, unit_cost := 50,
    total_cost := 100, hpp_account_code := "50011", memo := none,
    journal_entry_id := none }

/-- Sales invoice of the C5 witness database. -/
def w5_invoice : SalesInvoice :=
  { id := 1, tenant := none, date := 5, invoice_no := "INV-1",
    customer_name := "A", ar_account_code := "10031", ar_account_name := "Piutang",
    revenue_account_code := "40011", revenue_account_name := "Pendapatan",
    total_amount := 400, paid_amount := 0, status := "unpaid",
    journal_entry_id := none }

/-- AR payment of the C5 witness database. -/
def w5_arp : ARPayment :=
  { id := 1, date := 6, invoice_id := 1, invoice_no := "INV-1",
    cash_account_code := "10011", cash_account_name := "Kas", amount := 400,
    memo := none, journal_entry_id := none }

/-- A stale journal entry sitting in the C5 witness database before the
rebuild. -/
def w5_stale_entry : JournalEntry :=
  { id := 99, tenant := none, date := 1, memo := none, source := "manual",
    source_id := none, lines := [] }

/-- The C5 witness database: one source transaction of every kind, a
chart holding every required account, and a stale journal entry to be
discarded. -/
def w5_db : Db :=
  { accounts := [
      { tenant := 1, code := "10051", name := "Persediaan" },
      { tenant := 1, code := "20011", name := "Hutang Usaha" },
      { tenant := 1, code := "10011", name := "Kas" },
      { tenant := 1, code := "50011", name := "HPP Bahan" }],
    items := [{ id := 1, tenant := none, stock_qty := 3, avg_cost := 50 }],
    cash_transactions := [w5_cash],
    purchases := [w5_purchase],
    purchase_items := [{ id := 1, purchase_id := 1, item_id := 1, qty := 6, price := 50 }],
    ap_payments := [w5_ap],
    sales_invoices := [w5_invoice],
    ar_payments := [w5_arp],
    stock_usages := [w5_usage],
    journal_entries := [w5_stale_entry],
    next_entry_id := 100 }

/-- Entries built for the witness purchases. -/
def w5_pb : List JournalEntry :=
  match build_all (create_journal_for_purchase w5_db.accounts)
      (sort_purchases w5_db.purchases) with
  | .ok l => l
  | .error _ => []

/-- Entries built for the witness AP payments. -/
def w5_ab : List JournalEntry :=
  match build_all (create_journal_for_ap_payment w5_db.accounts)
      (sort_ap_payments w5_db.ap_payments) with
  | .ok l => l
  | .error _ => []

/-- Entries built for the witness stock usages. -/
def w5_ub : List JournalEntry :=
  match build_all (create_journal_for_stock_usage w5_db.accounts)
      (sort_usages w5_db.stock_usages) with
  | .ok l => l
  | .error _ => []

/-- The witness database after `_rebuild_all_journals`. -/
def w5_out : Db :=
  match rebuild_all_journals w5_db with
  | .ok d => d
  | .error _ => w5_db

/-- Witness for C5: on the concrete database every AR payment (and, via
the theorem, every other source transaction) ends up with a non-null
back-reference after the journal rebuild. -/
theorem rebuild_journals_step5_spec_witness :
    (w5_out.ar_payments.all (fun p => p.journal_entry_id.isSome)) = true :=
  List.all_eq_true.mpr
    ((rebuild_journals_step5_spec w5_db w5_out w5_pb w5_ab w5_ub rfl rfl rfl
      rfl).2.2.2.2.2.2.2.2.2.2.2.2 (by decide))

/-! ### Claim C3 — idempotence of the full rebuild

The rebuild writes only derived data: item stock/cost fields, paid
flags/amounts, journal back-references and the journal entries
themselves.  The lemmas below show each pass is unaffected by exactly
those updates, so a second run reproduces the first run's results. -/

theorem build_all_congr {α : Type} (b : α → Except String JournalEntry) (F : α → α)
    (hF : ∀ x, b (F x) = b x) (l : List α) :
    build_all b (l.map F) = build_all b l := by
  induction l with
  | nil => rfl
  | cons x xs ih => simp only [List.map_cons, build_all, hF x, ih]

theorem reset_item_apply_purchase (it : Item) (q p : ℚ) :
    reset_item (apply_purchase_event it q p) = reset_item it := by
  unfold apply_purchase_event reset_item
  split_ifs <;> rfl

theorem reset_item_apply_usage (it : Item) (q : ℚ) :
    reset_item (apply_usage_event it q) = reset_item it := by
  unfold apply_usage_event reset_item
  split_ifs <;> rfl

theorem reset_after_events (evs : List InvEvent) (s : List Item) :
    (evs.foldl apply_inv_event s).map reset_item = s.map reset_item := by
  induction evs generalizing s with
  | nil => rfl
  | cons e rest ih =>
    rw [List.foldl_cons, ih]
    simp only [apply_inv_event, List.map_map]
    apply List.map_congr_left
    intro x _
    show reset_item (if x.id == e.item_id then _ else x) = reset_item x
    split_ifs with h1 h2
    · exact reset_item_apply_purchase x e.qty e.price
    · exact reset_item_apply_usage x e.qty
    · rfl

theorem rebuild_inventory_reset (items : List Item) (ps : List Purchase)
    (pis : List PurchaseItem) (us : List StockUsage) :
    (rebuild_inventory items ps pis us).map reset_item = items.map reset_item := by
  unfold rebuild_inventory
  rw [reset_after_events, List.map_map]
  rfl

theorem inv_events_congr (ps : List Purchase) (pis : List PurchaseItem)
    (us : List StockUsage) (F : Purchase → Purchase) (Fu : StockUsage → StockUsage)
    (hFid : ∀ p, (F p).id = p.id) (hFdate : ∀ p, (F p).date = p.date)
    (hUid : ∀ u, (Fu u).id = u.id) (hUdate : ∀ u, (Fu u).date = u.date)
    (hUitem : ∀ u, (Fu u).item_id = u.item_id) (hUqty : ∀ u, (Fu u).qty = u.qty) :
    inv_events (ps.map F) pis (us.map Fu) = inv_events ps pis us := by
  unfold inv_events
  have hrows : purchase_rows (ps.map F) pis = purchase_rows ps pis := by
    unfold purchase_rows
    apply congrArg
    apply List.filterMap_congr
    intro pi _
    rw [List.find?_map]
    rw [show ((fun p : Purchase => p.id == pi.purchase_id) ∘ F) =
        (fun p : Purchase => p.id == pi.purchase_id) from
      funext fun p => by simp only [Function.comp_apply, hFid p]]
    rw [Option.map_map]
    cases ps.find? (fun p => p.id == pi.purchase_id) with
    | none => rfl
    | some p =>
      show some _ = some _
      rw [Function.comp_apply]
      rw [show ({ p_date := (F p).date, p_id := (F p).id, pitem := pi } : PurchaseRow) =
        { p_date := p.date, p_id := p.id, pitem := pi } from by rw [hFdate p, hFid p]]
  have husage : (usage_rows (us.map Fu)).map usage_event =
      (usage_rows us).map usage_event := by
    unfold usage_rows
    rw [sortBy2_map _ Fu (fun u => by rw [hUdate u, hUid u]), List.map_map]
    apply List.map_congr_left
    intro u _
    show usage_event (Fu u) = usage_event u
    unfold usage_event
    rw [hUdate u, hUitem u, hUqty u]
  rw [hrows, husage]

theorem rebuild_inventory_congr (itemsA itemsB : List Item) (ps : List Purchase)
    (pis : List PurchaseItem) (us : List StockUsage)
    (F : Purchase → Purchase) (Fu : StockUsage → StockUsage)
    (hreset : itemsB.map reset_item = itemsA.map reset_item)
    (hFid : ∀ p, (F p).id = p.id) (hFdate : ∀ p, (F p).date = p.date)
    (hUid : ∀ u, (Fu u).id = u.id) (hUdate : ∀ u, (Fu u).date = u.date)
    (hUitem : ∀ u, (Fu u).item_id = u.item_id) (hUqty : ∀ u, (Fu u).qty = u.qty) :
    rebuild_inventory itemsB (ps.map F) pis (us.map Fu) =
      rebuild_inventory itemsA ps pis us := by
  unfold rebuild_inventory
  rw [inv_events_congr ps pis us F Fu hFid hFdate hUid hUdate hUitem hUqty, hreset]

theorem build_all_sorted_congr_purchase (accs : List Account) (l : List Purchase)
    (F : Purchase → Purchase)
    (hdate : ∀ p, (F p).date = p.date) (hid : ∀ p, (F p).id = p.id)
    (hb : ∀ p, create_journal_for_purchase accs (F p) =
      create_journal_for_purchase accs p) :
    build_all (create_journal_for_purchase accs) (sort_purchases (l.map F)) =
      build_all (create_journal_for_purchase accs) (sort_purchases l) := by
  unfold sort_purchases
  rw [sortBy2_map _ F (fun p => by rw [hdate p, hid p])]
  exact build_all_congr _ F hb _

theorem build_all_sorted_congr_ap (accs : List Account) (l : List APayment)
    (F : APayment → APayment)
    (hdate : ∀ p, (F p).date = p.date) (hid : ∀ p, (F p).id = p.id)
    (hb : ∀ p, create_journal_for_ap_payment accs (F p) =
      create_journal_for_ap_payment accs p) :
    build_all (create_journal_for_ap_payment accs) (sort_ap_payments (l.map F)) =
      build_all (create_journal_for_ap_payment accs) (sort_ap_payments l) := by
  unfold sort_ap_payments
  rw [sortBy2_map _ F (fun p => by rw [hdate p, hid p])]
  exact build_all_congr _ F hb _

theorem build_all_sorted_congr_usage (accs : List Account) (l : List StockUsage)
    (F : StockUsage → StockUsage)
    (hdate : ∀ u, (F u).date = u.date) (hid : ∀ u, (F u).id = u.id)
    (hb : ∀ u, create_journal_for_stock_usage accs (F u) =
      create_journal_for_stock_usage accs u) :
    build_all (create_journal_for_stock_usage accs) (sort_usages (l.map F)) =
      build_all (create_journal_for_stock_usage accs) (sort_usages l) := by
  unfold sort_usages
  rw [sortBy2_map _ F (fun u => by rw [hdate u, hid u])]
  exact build_all_congr _ F hb _

theorem cash_bodies_congr (l : List CashTransaction) (F : CashTransaction → CashTransaction)
    (hdate : ∀ t, (F t).date = t.date) (hid : ∀ t, (F t).id = t.id)
    (hb : ∀ t, create_journal_for_cash (F t) = create_journal_for_cash t) :
    (sort_cash (l.map F)).map (fun t => entry_body (create_journal_for_cash t)) =
      (sort_cash l).map (fun t => entry_body (create_journal_for_cash t)) := by
  unfold sort_cash
  rw [sortBy2_map _ F (fun t => by rw [hdate t, hid t]), List.map_map]
  apply List.map_congr_left
  intro t _
  show entry_body (create_journal_for_cash (F t)) = _
  rw [hb t]

theorem invoice_bodies_congr (l : List SalesInvoice) (F : SalesInvoice → SalesInvoice)
    (hdate : ∀ i, (F i).date = i.date) (hid : ∀ i, (F i).id = i.id)
    (hb : ∀ i, create_journal_for_invoice (F i) = create_journal_for_invoice i) :
    (sort_invoices (l.map F)).map (fun i => entry_body (create_journal_for_invoice i)) =
      (sort_invoices l).map (fun i => entry_body (create_journal_for_invoice i)) := by
  unfold sort_invoices
  rw [sortBy2_map _ F (fun i => by rw [hdate i, hid i]), List.map_map]
  apply List.map_congr_left
  intro i _
  show entry_body (create_journal_for_invoice (F i)) = _
  rw [hb i]

theorem ar_bodies_congr (linv : List SalesInvoice) (lar : List ARPayment)
    (Fi : SalesInvoice → SalesInvoice) (Fa : ARPayment → ARPayment)
    (hIid : ∀ i, (Fi i).id = i.id)
    (hAdate : ∀ p, (Fa p).date = p.date) (hAid : ∀ p, (Fa p).id = p.id)
    (hAinv : ∀ p, (Fa p).invoice_id = p.invoice_id)
    (hbody : ∀ p i, entry_body (create_journal_for_ar_payment (Fa p) (Fi i)) =
      entry_body (create_journal_for_ar_payment p i)) :
    (sort_ar_payments (lar.map Fa)).filterMap (fun p =>
        ((linv.map Fi).find? (fun i => i.id == p.invoice_id)).map
          (fun inv => entry_body (create_journal_for_ar_payment p inv))) =
      (sort_ar_payments lar).filterMap (fun p =>
        (linv.find? (fun i => i.id == p.invoice_id)).map
          (fun inv => entry_body (create_journal_for_ar_payment p inv))) := by
  unfold sort_ar_payments
  rw [sortBy2_map _ Fa (fun p => by rw [hAdate p, hAid p]), List.filterMap_map]
  apply List.filterMap_congr
  intro p _
  show ((linv.map Fi).find? (fun i => i.id == (Fa p).invoice_id)).map
      (fun inv => entry_body (create_journal_for_ar_payment (Fa p) inv)) = _
  rw [hAinv p, List.find?_map]
  rw [show ((fun i : SalesInvoice => i.id == p.invoice_id) ∘ Fi) =
      (fun i : SalesInvoice => i.id == p.invoice_id) from
    funext fun i => by simp only [Function.comp_apply, hIid i]]
  rw [Option.map_map]
  cases linv.find? (fun i => i.id == p.invoice_id) with
  | none => rfl
  | some i =>
    show some _ = some _
    rw [Function.comp_apply, hbody p i]

/-- The journal-entry content a successful `_rebuild_all_journals` run
leaves behind, independent of the fresh ids. -/
theorem rebuilt_db_bodies (db : Db) (pb ab ub : List JournalEntry) :
    (rebuilt_db db pb ab ub).journal_entries.map entry_body =
      (sort_cash db.cash_transactions).map
        (fun t => entry_body (create_journal_for_cash t)) ++
      pb.map entry_body ++ ab.map entry_body ++ ub.map entry_body ++
      (sort_invoices db.sales_invoices).map
        (fun i => entry_body (create_journal_for_invoice i)) ++
      (sort_ar_payments db.ar_payments).filterMap (fun p =>
        (db.sales_invoices.find? (fun i => i.id == p.invoice_id)).map
          (fun inv => entry_body (create_journal_for_ar_payment p inv))) := by
  simp only [rebuilt_db, List.map_append, assign_entry_ids_bodies,
    build_ar_entries_bodies, List.map_map]
  rfl

/-- Master congruence for the journal rebuild: when database `dbB`
differs from `dbA` only by per-row rewrites that preserve each builder's
inputs and the `(date, id)` sort keys — exactly the shape of the derived
updates a rebuild writes — a journal rebuild of `dbB` succeeds with the
same built entries and the same entry bodies as one of `dbA`. -/
theorem raj_congr (dbA dbB : Db) (pb ab ub : List JournalEntry)
    (Fc : CashTransaction → CashTransaction)
    (Fp1 Fp2 : Purchase → Purchase)
    (Fa : APayment → APayment)
    (Fu : StockUsage → StockUsage)
    (Fi1 Fi2 : SalesInvoice → SalesInvoice)
    (Far : ARPayment → ARPayment)
    (hacc : dbB.accounts = dbA.accounts)
    (hcash : dbB.cash_transactions = dbA.cash_transactions.map Fc)
    (hpur : dbB.purchases = (dbA.purchases.map Fp1).map Fp2)
    (hap : dbB.ap_payments = dbA.ap_payments.map Fa)
    (hus : dbB.stock_usages = dbA.stock_usages.map Fu)
    (hinv : dbB.sales_invoices = (dbA.sales_invoices.map Fi1).map Fi2)
    (har : dbB.ar_payments = dbA.ar_payments.map Far)
    (hc1 : ∀ t, (Fc t).date = t.date) (hc2 : ∀ t, (Fc t).id = t.id)
    (hc3 : ∀ t, create_journal_for_cash (Fc t) = create_journal_for_cash t)
    (hp1 : ∀ p, (Fp2 (Fp1 p)).date = p.date) (hp2 : ∀ p, (Fp2 (Fp1 p)).id = p.id)
    (hp3 : ∀ p, create_journal_for_purchase dbA.accounts (Fp2 (Fp1 p)) =
      create_journal_for_purchase dbA.accounts p)
    (ha1 : ∀ p, (Fa p).date = p.date) (ha2 : ∀ p, (Fa p).id = p.id)
    (ha3 : ∀ p, create_journal_for_ap_payment dbA.accounts (Fa p) =
      create_journal_for_ap_payment dbA.accounts p)
    (hu1 : ∀ u, (Fu u).date = u.date) (hu2 : ∀ u, (Fu u).id = u.id)
    (hu3 : ∀ u, create_journal_for_stock_usage dbA.accounts (Fu u) =
      create_journal_for_stock_usage dbA.accounts u)
    (hi1 : ∀ i, (Fi2 (Fi1 i)).date = i.date) (hi2 : ∀ i, (Fi2 (Fi1 i)).id = i.id)
    (hi3 : ∀ i, create_journal_for_invoice (Fi2 (Fi1 i)) =
      create_journal_for_invoice i)
    (har1 : ∀ p, (Far p).date = p.date) (har2 : ∀ p, (Far p).id = p.id)
    (har3 : ∀ p, (Far p).invoice_id = p.invoice_id)
    (har4 : ∀ p i, entry_body (create_journal_for_ar_payment (Far p) (Fi2 (Fi1 i))) =
      entry_body (create_journal_for_ar_payment p i))
    (hpb : build_all (create_journal_for_purchase dbA.accounts)
      (sort_purchases dbA.purchases) = .ok pb)
    (hab : build_all (create_journal_for_ap_payment dbA.accounts)
      (sort_ap_payments dbA.ap_payments) = .ok ab)
    (hub : build_all (create_journal_for_stock_usage dbA.accounts)
      (sort_usages dbA.stock_usages) = .ok ub) :
    rebuild_all_journals dbB = .ok (rebuilt_db dbB pb ab ub) ∧
    (rebuilt_db dbB pb ab ub).journal_entries.map entry_body =
      (rebuilt_db dbA pb ab ub).journal_entries.map entry_body := by
  constructor
  · apply (rebuild_all_journals_ok_iff _ _).mpr
    refine ⟨pb, ab, ub, ?_, ?_, ?_, rfl⟩
    · rw [hacc, hpur, List.map_map,
        build_all_sorted_congr_purchase dbA.accounts dbA.purchases (Fp2 ∘ Fp1)
          hp1 hp2 hp3]
      exact hpb
    · rw [hacc, hap,
        build_all_sorted_congr_ap dbA.accounts dbA.ap_payments Fa ha1 ha2 ha3]
      exact hab
    · rw [hacc, hus,
        build_all_sorted_congr_usage dbA.accounts dbA.stock_usages Fu hu1 hu2 hu3]
      exact hub
  · rw [rebuilt_db_bodies, rebuilt_db_bodies, hcash, hinv, har, List.map_map,
      cash_bodies_congr dbA.cash_transactions Fc hc1 hc2 hc3,
      invoice_bodies_congr dbA.sales_invoices (Fi2 ∘ Fi1) hi1 hi2 hi3,
      ar_bodies_congr dbA.sales_invoices dbA.ar_payments (Fi2 ∘ Fi1) Far
        hi2 har1 har2 har3 har4]

/-- C3: the rebuild is idempotent — whenever a full rebuild succeeds,
running it again succeeds and reproduces the same item states
(`stock_qty`, `avg_cost`) and the same journal entries and lines (dates,
memos, source tags, source ids, account codes/names, debit/credit
amounts; entry surrogate keys excepted, since the autoincrement keeps
counting). -/
theorem rebuild_idempotent (db db1 : Db) (h : rebuild_everything db = .ok db1) :
    ∃ db2, rebuild_everything db1 = .ok db2 ∧ db2.items = db1.items ∧
      db2.journal_entries.map entry_body = db1.journal_entries.map entry_body := by
  unfold rebuild_everything at h ⊢
  rcases (rebuild_all_journals_ok_iff _ db1).mp h with ⟨pb, ab, ub, hpb, hab, hub, rfl⟩
  have hcong := raj_congr (staged_db db)
    (staged_db (rebuilt_db (staged_db db) pb ab ub)) pb ab ub
    _ _ _ _ _ _ _ _
    rfl rfl rfl rfl rfl rfl rfl
    (fun t => rfl) (fun t => rfl) (fun t => rfl)
    (fun p => by dsimp only; split_ifs <;> rfl)
    (fun p => by dsimp only; split_ifs <;> rfl)
    (fun p => by dsimp only; split_ifs <;> rfl)
    (fun p => rfl) (fun p => rfl) (fun p => rfl)
    (fun u => rfl) (fun u => rfl) (fun u => rfl)
    (fun i => by simp only [recalc_invoice_paid_one]; split_ifs <;> rfl)
    (fun i => by simp only [recalc_invoice_paid_one]; split_ifs <;> rfl)
    (fun i => by simp only [recalc_invoice_paid_one]; split_ifs <;> rfl)
    (fun p => rfl) (fun p => rfl) (fun p => rfl)
    (fun p i => by simp only [recalc_invoice_paid_one]; split_ifs <;> rfl)
    hpb hab hub
  refine ⟨rebuilt_db (staged_db (rebuilt_db (staged_db db) pb ab ub)) pb ab ub,
    hcong.1, ?_, hcong.2⟩
  show rebuild_inventory (rebuilt_db (staged_db db) pb ab ub).items
      ((db.purchases.map _).map _) db.purchase_items (db.stock_usages.map _) = _
  rw [List.map_map]
  refine (rebuild_inventory_congr db.items _ db.purchases db.purchase_items
    db.stock_usages _ _ ?_ ?_ ?_ ?_ ?_ ?_ ?_).trans ?_
  · show (rebuild_inventory db.items db.purchases db.purchase_items
      db.stock_usages).map reset_item = db.items.map reset_item
    exact rebuild_inventory_reset _ _ _ _
  · intro p
    dsimp only [Function.comp]
    split_ifs <;> rfl
  · intro p
    dsimp only [Function.comp]
    split_ifs <;> rfl
  · intro u
    rfl
  · intro u
    rfl
  · intro u
    rfl
  · intro u
    rfl
  · rfl

/-- The C3 witness database: a chart with the required accounts and one
source transaction of every kind. -/
def w3_db : Db :=
  { accounts := [
      { tenant := 1, code := "10051", name := "Persediaan" },
      { tenant := 1, code := "20011", name := "Hutang Usaha" },
      { tenant := 1, code := "10011", name := "Kas" },
      { tenant := 1, code := "50011", name := "HPP Bahan" }],
    items := [{ id := 1, tenant := none, stock_qty := 4, avg_cost := 50 }],
    cash_transactions := [
      { id := 1, tenant := none, date := 1, direction := "in",
        cash_account_code := "10011", cash_account_name := "Kas",
        counter_account_code := "40011", counter_account_name := "Pendapatan",
        amount := 500, memo := none, journal_entry_id := none }],
    purchases := [
      { id := 1, tenant := none, date := 2, total_amount := 300,
        is_paid := false, memo := none, journal_entry_id := none }],
    purchase_items := [{ id := 1, purchase_id := 1, item_id := 1, qty := 6, price := 50 }],
    ap_payments := [
      { id := 1, date := 3, purchase_id := some 1,
        cash_account_code := "10011", cash_account_name := "Kas", amount := 300,
        memo := none, journal_entry_id := none }],
    sales_invoices := [
      { id := 1, tenant := none, date := 5, invoice_no := "INV-1",
        customer_name := "A", ar_account_code := "10031", ar_account_name := "Piutang",
        revenue_account_code := "40011", revenue_account_name := "Pendapatan",
        total_amount := 400, paid_amount := 0, status := "unpaid",
        journal_entry_id := none }],
    ar_payments := [
      { id := 1, date := 6, invoice_id := 1, invoice_no := "INV-1",
        cash_account_code := "10011", cash_account_name := "Kas", amount := 150,
        memo := none, journal_entry_id := none }],
    stock_usages := [
      { id := 1, date := 4, item_id := 1, qty := 2, unit_cost := 50,
        total_cost := 100, hpp_account_code := "50011", memo := none,
        journal_entry_id := none }],
    journal_entries := [],
    next_entry_id := 1 }

/-- The C3 witness database after one full rebuild. -/
def w3_out : Db :=
  match rebuild_everything w3_db with
  | .ok d => d
  | .error _ => w3_db

/-- Witness for C3: the concrete witness database rebuilds successfully,
and a second rebuild reproduces its items and journal-entry bodies. -/
theorem rebuild_idempotent_witness :
    ∃ db2, rebuild_everything w3_out = .ok db2 ∧ db2.items = w3_out.items ∧
      db2.journal_entries.map entry_body = w3_out.journal_entries.map entry_body :=
  rebuild_idempotent w3_db w3_out rfl

end Bukudapur
